import Mathlib

/-!
Shallow embedding of `train_pt.py` (imgclsmob PyTorch training script) and
proofs about the claims of its specification.

Conventions of the embedding:
* Python floats are modelled as rationals (`ℚ`); the script performs only
  field arithmetic on the metric values, so `ℚ` is exact.
* Fallible Python code is modelled with `Except PyError`; the constructors
  of `PyError` mirror the Python exception classes the script can raise.
* External collaborators (the torchvision model dictionary, the file
  system, the network itself) are passed in as explicit parameters, so the
  definitions stay executable and the theorems can be evaluated on
  concrete inputs.
-/

namespace TrainPt

/-- Python exception classes that the embedded fragments of `train_pt.py`
can raise.  `exception` models the bare `raise Exception()` in
`prepare_trainer`. -/
inductive PyError where
  | attributeError (name : String)
  | keyError (key : String)
  | valueError (msg : String)
  | typeError (msg : String)
  | assertionError
  | unboundLocalError (name : String)
  | exception
  deriving Repr, DecidableEq

/-- The `AverageMeter` class of `train_pt.py` (lines 388-403): running
value/sum/count/average bookkeeping.  Field order follows `reset`. -/
structure AverageMeter where
  val : ℚ
  avg : ℚ
  sum : ℚ
  count : ℚ
  deriving Repr, DecidableEq

/-- `AverageMeter.reset`: zero every field (lines 393-397). -/
def AverageMeter.reset (_m : AverageMeter) : AverageMeter := ⟨0, 0, 0, 0⟩

/-- `AverageMeter.update(val, n)` (lines 399-403): record the latest value,
accumulate the weighted sum and the count, recompute the average. -/
def AverageMeter.update (m : AverageMeter) (val : ℚ) (n : ℚ) : AverageMeter :=
  ⟨val, (m.sum + val * n) / (m.count + n), m.sum + val * n, m.count + n⟩

/-- Fold a sequence of `update(val, n)` calls over a meter state. -/
def applyUpdates (m : AverageMeter) (us : List (ℚ × ℚ)) : AverageMeter :=
  us.foldl (fun s p => s.update p.1 p.2) m

/-- Descending insertion used to model `torch.topk(maxk, 1, True, True)`:
indices are ordered by strictly greater score; on ties the earlier-inserted
(larger) index stays in place, which matches one deterministic tie order.
The concrete evaluations below only use batches with distinct scores, so
the tie order never matters for the claims. -/
def insDesc (scores : List ℚ) (i : ℕ) : List ℕ → List ℕ
  | [] => [i]
  | j :: rest =>
    if scores.getD j 0 < scores.getD i 0 then i :: j :: rest
    else j :: insDesc scores i rest

/-- Indices of the `k` highest scores, in descending score order
(the index rows of `output.topk(maxk, 1, True, True)` for one sample). -/
def topkIdx (scores : List ℚ) (k : ℕ) : List ℕ :=
  ((List.range scores.length).foldr (insDesc scores) []).take k

/-- The `accuracy(output, target, topk)` function (lines 406-420).
`output` holds one score row per sample, `target` the true labels.  For
each `k` in `topk` it returns the number of samples whose label is among
the top `k` predictions, multiplied by `100 / batch_size` (the
`correct_k.mul_(100.0 / batch_size)` of the source): a percentage. -/
def accuracy (output : List (List ℚ)) (target : List ℕ) (topk : List ℕ) : List ℚ :=
  let maxk := topk.foldr max 0
  let batch_size := target.length
  topk.map fun k =>
    let correct_k :=
      ((List.zip output target).filter
        (fun p => ((topkIdx p.1 maxk).take k).contains p.2)).length
    (correct_k : ℚ) * (100 / (batch_size : ℚ))

/-- The `validate` function (lines 423-441): reset both meters, update them
per batch with `accuracy(output, target, (1, 5))` weighted by the batch
size, and return `(1 - acc_top1.avg, 1 - acc_top5.avg)`.  The network is an
external collaborator, passed in as `net`; a batch pairs a network input
with its label vector. -/
def validate {α : Type} (acc_top1 acc_top5 : AverageMeter)
    (net : α → List (List ℚ)) (val_data : List (α × List ℕ)) : ℚ × ℚ :=
  let a1 := acc_top1.reset
  let a5 := acc_top5.reset
  let ms := val_data.foldl
    (fun (ms : AverageMeter × AverageMeter) b =>
      let output := net b.1
      let res := accuracy output b.2 [1, 5]
      (ms.1.update (res.getD 0 0) (b.2.length : ℚ),
       ms.2.update (res.getD 1 0) (b.2.length : ℚ)))
    (a1, a5)
  (1 - ms.1.avg, 1 - ms.2.avg)

/-- `prepare_pt_context` (lines 210-214): CUDA iff at least one GPU, and the
per-device batch size scaled by `max(1, num_gpus)`. -/
def prepare_pt_context (num_gpus : Int) (batch_size : Int) : Bool × Int :=
  (decide (0 < num_gpus), batch_size * max 1 num_gpus)

/-- Attribute (dest) names of the namespace returned by `parse_args`
(lines 25-172): one entry per `parser.add_argument` call, with argparse's
dash-to-underscore translation and the explicit `dest='evaluate'` and
`dest='num_workers'` of the source.  This set is the same for every
command line `parse_args` accepts. -/
def parse_args_dests : List String :=
  ["data_dir", "model", "use_pretrained", "resume", "evaluate",
   "num_gpus", "num_workers", "batch_size", "num_epochs", "start_epoch",
   "optimizer_name", "lr", "lr_mode", "lr_decay", "lr_decay_period",
   "lr_decay_epoch", "warmup_lr", "warmup_epochs", "momentum", "wd",
   "log_interval", "save_interval", "save_dir", "logging_file_name",
   "seed", "log_packages", "log_pip_packages"]

/-- Attribute names `main` reads off `args`, in program order, from its
start (line 585) up to and including the `args.convert_to_mxnet` read at
line 600; model construction (`prepare_model`, line 604) only comes after
all of these. -/
def main_attr_reads : List String :=
  ["seed", "save_dir", "logging_file_name", "log_packages",
   "log_pip_packages", "num_gpus", "batch_size", "convert_to_mxnet"]

/-- Reading a sequence of attributes off an argparse namespace with dest
set `dests`: the first missing attribute raises `AttributeError` and stops
execution, mirroring CPython attribute lookup. -/
def attr_read_chain (dests : List String) : List String → Except PyError Unit
  | [] => Except.ok ()
  | a :: rest =>
    if dests.contains a then attr_read_chain dests rest
    else Except.error (PyError.attributeError a)

/-- A checkpoint dictionary as the resume path expects it: the values
read back at lines 324 (`state_dict`) and 362-364 (`optimizer`, `epoch`,
`best_prec1`). -/
structure Checkpoint where
  state_dict : List ℚ
  optimizer_state : List ℚ
  epoch : Int
  best_prec1 : ℚ
  deriving Repr, DecidableEq

/-- The state of a `torch.optim.SGD` instance as far as the script touches
it: hyperparameters fixed at construction and the loadable internal
state. -/
structure Optimizer where
  lr : ℚ
  momentum : ℚ
  weight_decay : ℚ
  nesterov : Bool
  state : List ℚ
  deriving Repr, DecidableEq

/-- `prepare_trainer` (lines 329-370), restricted to the data it returns.
`resume` is `some ck` when a non-empty `pretrained_model_file_path` names
a loadable checkpoint `ck`, `none` on the fresh-training path.  On the
fresh path `start_epoch` and `best_prec1` are never assigned (they are
only bound inside the `if pretrained_model_file_path:` block), so the
`return` at line 370 raises `UnboundLocalError`; an unsupported optimizer
name raises the bare `Exception` of line 358. -/
def prepare_trainer (optimizer_name : String) (lr momentum wd : ℚ)
    (resume : Option Checkpoint) :
    Except PyError (Optimizer × Option Unit × Int × ℚ) :=
  let opt? : Option Optimizer :=
    if optimizer_name = "sgd" then some ⟨lr, momentum, wd, false, []⟩
    else if optimizer_name = "nag" then some ⟨lr, momentum, wd, true, []⟩
    else none
  match opt? with
  | none => Except.error PyError.exception
  | some opt =>
    match resume with
    | some ck =>
      Except.ok (⟨opt.lr, opt.momentum, opt.weight_decay, opt.nesterov,
                  ck.optimizer_state⟩, none, ck.epoch, ck.best_prec1)
    | none => Except.error (PyError.unboundLocalError "start_epoch")

/-- Attribute surface of the network object `save_params` receives: a
`torch.nn.DataParallel`-wrapped `torch.nn.Module` (lines 312-315).  The
PyTorch module API offers `state_dict`/`load_state_dict` but no
`save_parameters` — that is an MXNet Gluon method. -/
def torch_nn_module_attrs : List String :=
  ["forward", "train", "eval", "cuda", "cpu", "parameters",
   "named_parameters", "state_dict", "load_state_dict", "zero_grad",
   "apply", "children", "modules", "module"]

/-- `save_params` (lines 383-385): the whole body is
`net.save_parameters(file_path)`, an attribute lookup on the network
followed by a call.  `net_attrs` is the network's attribute surface. -/
def save_params (net_attrs : List String) : Except PyError Unit :=
  if net_attrs.contains "save_parameters" then Except.ok ()
  else Except.error (PyError.attributeError "save_parameters")

/-- Dictionary keys the resume path reads out of a loaded checkpoint:
`state_dict` in `prepare_model` (line 324) and `optimizer`, `epoch`,
`best_prec1` in `prepare_trainer` (lines 362-364). -/
def checkpoint_read_keys : List String :=
  ["state_dict", "optimizer", "epoch", "best_prec1"]

/-- Names of the local registry `slk_models` in `_get_model`
(lines 262-289). -/
def slk_model_names : List String :=
  ["squeezenet1_0", "squeezenet1_1",
   "mobilenet1_0", "mobilenet0_75", "mobilenet0_5", "mobilenet0_25",
   "fd_mobilenet1_0", "fd_mobilenet0_75", "fd_mobilenet0_5",
   "fd_mobilenet0_25",
   "shufflenet1_0_g1", "shufflenet1_0_g2", "shufflenet1_0_g3",
   "shufflenet1_0_g4", "shufflenet1_0_g8",
   "shufflenet0_5_g1", "shufflenet0_5_g2", "shufflenet0_5_g3",
   "shufflenet0_5_g4", "shufflenet0_5_g8",
   "shufflenet0_25_g1", "shufflenet0_25_g2", "shufflenet0_25_g3",
   "shufflenet0_25_g4", "shufflenet0_25_g8",
   "menet108_8x1_g3"]

/-- Model names exposed by the torchvision collection the script imports
(`torchvision.models` of the 0.2 era): the external collaborator of
`_get_model`.  None of the depthwise variants of `slk_model_names` other
than the two squeezenets appear here. -/
def torchvision_model_names : List String :=
  ["alexnet", "densenet121", "densenet161", "densenet169", "densenet201",
   "inception_v3", "resnet18", "resnet34", "resnet50", "resnet101",
   "resnet152", "squeezenet1_0", "squeezenet1_1", "vgg11", "vgg11_bn",
   "vgg13", "vgg13_bn", "vgg16", "vgg16_bn", "vgg19", "vgg19_bn"]

/-- `_get_model` (lines 261-299).  The `try` block evaluates
`models.__dict__[name](**kwargs)`: a dictionary subscript that raises
`KeyError` when `name` is absent from torchvision (`tv name = false`).
The `except ValueError` handler does not catch `KeyError`, so the local
`slk_models` fallback is reached only on a `ValueError`; inside the
handler, `name not in models` is a membership test on the
`torchvision.models` module object itself, which raises `TypeError`
before `slk_models` is consulted. -/
def get_model (tv : String → Bool) (name : String) : Except PyError String :=
  let tryResult : Except PyError String :=
    if tv name then Except.ok ("torchvision." ++ name)
    else Except.error (PyError.keyError name)
  match tryResult with
  | Except.ok net => Except.ok net
  | Except.error (PyError.valueError _) =>
    Except.error (PyError.typeError "argument of type module is not iterable")
  | Except.error e => Except.error e

/-- The evaluate-mode assertion of `main` (line 617):
`assert (args.use_pretrained or args.resume.strip())`, with Python string
truthiness — `rs` is the stripped resume path. -/
def evaluate_check (up : Bool) (rs : String) : Except PyError Unit :=
  if up = true ∨ rs ≠ "" then Except.ok ()
  else Except.error PyError.assertionError

/-- The resume-path assertion of `prepare_model` (lines 320-321): when a
non-empty checkpoint path is supplied, assert `os.path.isfile(path)`
before `torch.load`; `isfile` is the external file system. -/
def prepare_model_check (isfile : String → Bool) (path : String) :
    Except PyError Unit :=
  if path ≠ "" then
    (if isfile path then Except.ok ()
     else Except.error PyError.assertionError)
  else Except.ok ()

/-- The start-epoch assertion of `train_net` (lines 534-535):
`assert (type(start_epoch1) == int)` (always true in this typed model)
and `assert (start_epoch1 >= 1)`. -/
def train_net_assert (start_epoch1 : Int) : Except PyError Unit :=
  if 1 ≤ start_epoch1 then Except.ok ()
  else Except.error PyError.assertionError

/-- A PyTorch tensor as far as the loss bookkeeping of `train_epoch`
touches it: `nn.CrossEntropyLoss` with its default reduction returns a
0-dimensional (scalar) tensor. -/
inductive Tensor where
  | scalar (x : ℚ)
  | vec (xs : List ℚ)
  deriving Repr, DecidableEq

/-- Python iteration over a tensor (`for l in loss`): iterating a
0-dimensional tensor raises `TypeError` in PyTorch; a 1-dimensional tensor
yields its scalar elements. -/
def tensor_iter : Tensor → Except PyError (List Tensor)
  | Tensor.scalar _ => Except.error (PyError.typeError "iteration over a 0-d tensor")
  | Tensor.vec xs => Except.ok (xs.map Tensor.scalar)

/-- Attribute lookup `l.asscalar()` on a torch tensor: `asscalar` is an
MXNet NDArray method that `torch.Tensor` does not have, so the lookup
raises `AttributeError` whatever the tensor holds. -/
def tensor_asscalar : Tensor → Except PyError ℚ
  | _ => Except.error (PyError.attributeError "asscalar")

/-- The loss-accumulation statement of `train_epoch` (line 493):
`train_loss += sum([l.mean().asscalar() for l in loss]) / len(loss)`,
with the iteration and the `asscalar` lookups made explicit. -/
def loss_accum (train_loss : ℚ) (loss : Tensor) : Except PyError ℚ :=
  match tensor_iter loss with
  | Except.error e => Except.error e
  | Except.ok ls =>
    match ls.mapM tensor_asscalar with
    | Except.error e => Except.error e
    | Except.ok vs => Except.ok (train_loss + vs.sum / (ls.length : ℚ))

/-- `train_epoch` (lines 463-515), with the network and the loss value of
each batch supplied by the external framework (`lossOf` gives the rational
value the scalar loss tensor holds).  Per batch the source accumulates the
loss via `loss_accum` and updates the reset top-1 meter with
`accuracy(output, target, (1,))`; after the loop it returns
`(1.0 - acc_top1.avg, train_loss / (i + 1))` — with `i` unbound when the
loader was empty.  (The `log_interval` branch of lines 497-503, which
calls the nonexistent `acc_top1.get()`, is unreachable on the inputs
considered here because line 493 raises first.) -/
def train_epoch {α : Type} (acc_top1 : AverageMeter)
    (net : α → List (List ℚ)) (lossOf : List (List ℚ) → List ℕ → ℚ)
    (train_data : List (α × List ℕ)) : Except PyError (ℚ × ℚ) :=
  let acc := acc_top1.reset
  match train_data.foldlM
      (fun (st : ℚ × AverageMeter) b =>
        let output := net b.1
        let loss := Tensor.scalar (lossOf output b.2)
        match loss_accum st.1 loss with
        | Except.error e => Except.error e
        | Except.ok tl =>
          let prec1 := (accuracy output b.2 [1]).getD 0 0
          Except.ok (tl, st.2.update prec1 (b.2.length : ℚ)))
      ((0 : ℚ), acc) with
  | Except.error e => Except.error e
  | Except.ok (tl, m) =>
    match train_data.length with
    | 0 => Except.error (PyError.unboundLocalError "i")
    | Nat.succ k => Except.ok (1 - m.avg, tl / ((k + 1 : ℕ) : ℚ))

/-- Observable phases of `train_net`'s control flow, tagged with the
1-based epoch number the source logs and passes to the saver. -/
inductive Phase where
  | preValidate
  | trainEpoch (epoch1 : Int)
  | validateEpoch (epoch1 : Int)
  | saveCheckpoint (epoch1 : Int)
  deriving Repr, DecidableEq

/-- Python `range(a, b)` over integers. -/
def pyRange (a b : Int) : List Int :=
  (List.range (b - a).toNat).map fun i : ℕ => a + (i : Int)

/-- The loop of `train_net` (lines 548-576) over the remaining epoch
indices, with exception propagation: each iteration first calls
`train_epoch` — an exception raised there escapes at once, completing no
further phase — and only when it returns do the `validate` call and, when
a saver is configured, the saver callback of lines 571-576 follow.  The
source passes the same meters to every iteration and both `train_epoch`
and `validate` reset them on entry, so one iteration's events do not
depend on the previous iteration's meter state.  The result pairs the
phases that completed, in order, with the exception that escaped (if
any). -/
def train_net_loop {α : Type} (acc_top1 acc_top5 : AverageMeter)
    (net : α → List (List ℚ)) (lossOf : List (List ℚ) → List ℕ → ℚ)
    (train_data val_data : List (α × List ℕ)) (saver : Bool) :
    List Int → List Phase × Option PyError
  | [] => ([], none)
  | epoch :: rest =>
    match train_epoch acc_top1 net lossOf train_data with
    | Except.error e => ([], some e)
    | Except.ok _ =>
      let tail := train_net_loop acc_top1 acc_top5 net lossOf
        train_data val_data saver rest
      (Phase.trainEpoch (epoch + 1) :: Phase.validateEpoch (epoch + 1) ::
        ((if saver then [Phase.saveCheckpoint (epoch + 1)] else []) ++ tail.1),
       tail.2)

/-- `train_net` (lines 518-581) with exception propagation: assert
`start_epoch1 >= 1`; when `start_epoch1 > 1` one validation pass runs
before the loop (`validate` is total in this model, so that phase
completes); then the loop over
`range(start_epoch1 - 1, num_epochs)` runs via `train_net_loop`, and an
exception raised by `train_epoch` aborts the validation pass and saver
callback of that and of every later epoch. -/
def train_net_run {α : Type} (start_epoch1 num_epochs : Int)
    (acc_top1 acc_top5 : AverageMeter)
    (net : α → List (List ℚ)) (lossOf : List (List ℚ) → List ℕ → ℚ)
    (train_data val_data : List (α × List ℕ)) (saver : Bool) :
    List Phase × Option PyError :=
  if start_epoch1 < 1 then ([], some PyError.assertionError)
  else
    let tail := train_net_loop acc_top1 acc_top5 net lossOf
      train_data val_data saver (pyRange (start_epoch1 - 1) num_epochs)
    ((if 1 < start_epoch1 then [Phase.preValidate] else []) ++ tail.1,
     tail.2)

/-! ### Helper lemmas -/

lemma applyUpdates_cons (s : AverageMeter) (p : ℚ × ℚ) (t : List (ℚ × ℚ)) :
    applyUpdates s (p :: t) = applyUpdates (s.update p.1 p.2) t := rfl

lemma applyUpdates_count (us : List (ℚ × ℚ)) :
    ∀ s : AverageMeter,
      (applyUpdates s us).count = s.count + (us.map Prod.snd).sum := by
  induction us with
  | nil => intro s; simp [applyUpdates]
  | cons p t ih =>
    intro s
    rw [applyUpdates_cons, ih]
    simp [AverageMeter.update]
    ring

lemma applyUpdates_sum (us : List (ℚ × ℚ)) :
    ∀ s : AverageMeter,
      (applyUpdates s us).sum = s.sum + (us.map (fun p => p.1 * p.2)).sum := by
  induction us with
  | nil => intro s; simp [applyUpdates]
  | cons p t ih =>
    intro s
    rw [applyUpdates_cons, ih]
    simp [AverageMeter.update]
    ring

lemma applyUpdates_val (us : List (ℚ × ℚ)) :
    ∀ (s : AverageMeter) (h : us ≠ []),
      (applyUpdates s us).val = (us.getLast h).1 := by
  induction us with
  | nil => intro _ h; exact absurd rfl h
  | cons p t ih =>
    intro s h
    cases t with
    | nil => rfl
    | cons q r =>
      rw [applyUpdates_cons, List.getLast_cons (List.cons_ne_nil q r)]
      exact ih _ (List.cons_ne_nil q r)

lemma applyUpdates_avg (us : List (ℚ × ℚ)) :
    ∀ (s : AverageMeter), us ≠ [] →
      (applyUpdates s us).avg =
        (applyUpdates s us).sum / (applyUpdates s us).count := by
  induction us with
  | nil => intro _ h; exact absurd rfl h
  | cons p t ih =>
    intro s _
    cases t with
    | nil => rfl
    | cons q r =>
      rw [applyUpdates_cons]
      exact ih _ (List.cons_ne_nil q r)

/-! ### Claim theorems -/

/-- Claim C9: after `AverageMeter.reset` all four fields are zero, and after
any sequence of `update(val, n)` calls with every `n > 0`, `count` is the
total of the `n`s, `sum` is the `n`-weighted total of the values, `val` is
the most recent value, and `avg` equals `sum / count`. -/
theorem average_meter_invariant (m0 : AverageMeter) (us : List (ℚ × ℚ))
    (hpos : ∀ p ∈ us, (0 : ℚ) < p.2) (hne : us ≠ []) :
    m0.reset = ⟨0, 0, 0, 0⟩ ∧
    (applyUpdates m0.reset us).count = (us.map Prod.snd).sum ∧
    (applyUpdates m0.reset us).sum = (us.map (fun p => p.1 * p.2)).sum ∧
    (applyUpdates m0.reset us).val = (us.getLast hne).1 ∧
    (applyUpdates m0.reset us).avg =
      (applyUpdates m0.reset us).sum / (applyUpdates m0.reset us).count := by
  refine ⟨rfl, ?_, ?_, applyUpdates_val us _ hne, applyUpdates_avg us _ hne⟩
  · rw [applyUpdates_count]
    show (0 : ℚ) + _ = _
    ring
  · rw [applyUpdates_sum]
    show (0 : ℚ) + _ = _
    ring

/-- Witness for C9 at the concrete update sequence
`update(3, 2); update(5/2, 1)`. -/
theorem average_meter_invariant_witness :
    (⟨1, 2, 3, 4⟩ : AverageMeter).reset = ⟨0, 0, 0, 0⟩ ∧
    (applyUpdates ((⟨1, 2, 3, 4⟩ : AverageMeter).reset)
        [((3 : ℚ), (2 : ℚ)), (5/2, 1)]).count =
      (([((3 : ℚ), (2 : ℚ)), (5/2, 1)]).map Prod.snd).sum ∧
    (applyUpdates ((⟨1, 2, 3, 4⟩ : AverageMeter).reset)
        [((3 : ℚ), (2 : ℚ)), (5/2, 1)]).sum =
      (([((3 : ℚ), (2 : ℚ)), (5/2, 1)]).map (fun p => p.1 * p.2)).sum ∧
    (applyUpdates ((⟨1, 2, 3, 4⟩ : AverageMeter).reset)
        [((3 : ℚ), (2 : ℚ)), (5/2, 1)]).val =
      (([((3 : ℚ), (2 : ℚ)), (5/2, 1)]).getLast (by decide)).1 ∧
    (applyUpdates ((⟨1, 2, 3, 4⟩ : AverageMeter).reset)
        [((3 : ℚ), (2 : ℚ)), (5/2, 1)]).avg =
      (applyUpdates ((⟨1, 2, 3, 4⟩ : AverageMeter).reset)
          [((3 : ℚ), (2 : ℚ)), (5/2, 1)]).sum /
        (applyUpdates ((⟨1, 2, 3, 4⟩ : AverageMeter).reset)
            [((3 : ℚ), (2 : ℚ)), (5/2, 1)]).count :=
  average_meter_invariant ⟨1, 2, 3, 4⟩ [(3, 2), (5/2, 1)] (by decide) (by decide)

/-- Claim C10: `prepare_pt_context` returns `use_cuda` true iff
`num_gpus > 0`, and the effective batch size is the per-device batch size
multiplied by `max(1, num_gpus)`. -/
theorem prepare_pt_context_spec (num_gpus batch_size : Int) :
    ((prepare_pt_context num_gpus batch_size).1 = true ↔ 0 < num_gpus) ∧
    (prepare_pt_context num_gpus batch_size).2 = batch_size * max 1 num_gpus := by
  constructor
  · simp [prepare_pt_context]
  · rfl

/-- Claim C7 (code bug): `train_net` never executes the claimed schedule,
because every iteration's `train_epoch` raises (line 493 `TypeError` with
a batch, line 507 unbound `i` with an empty loader) and the exception
propagates.  With `start_epoch1 = 1`, `num_epochs = 3` and a one-sample
training batch, no phase completes at all: no training epoch finishes, no
post-epoch validation runs and the saver callback is never invoked; with
`start_epoch1 = 2` only the extra pre-loop validation pass completes
before the same exception escapes; with an empty training loader the run
dies with `UnboundLocalError` instead. -/
theorem train_net_never_completes_eval :
    train_net_run 1 3 (⟨0, 0, 0, 0⟩ : AverageMeter) ⟨0, 0, 0, 0⟩
      (fun x : List (List ℚ) => x) (fun _ _ => 1/2)
      [([[1, 0]], [0])] [([[1, 0]], [0])] true =
      ([], some (PyError.typeError "iteration over a 0-d tensor")) ∧
    train_net_run 2 3 (⟨0, 0, 0, 0⟩ : AverageMeter) ⟨0, 0, 0, 0⟩
      (fun x : List (List ℚ) => x) (fun _ _ => 1/2)
      [([[1, 0]], [0])] [([[1, 0]], [0])] true =
      ([Phase.preValidate],
       some (PyError.typeError "iteration over a 0-d tensor")) ∧
    train_net_run 1 3 (⟨0, 0, 0, 0⟩ : AverageMeter) ⟨0, 0, 0, 0⟩
      (fun x : List (List ℚ) => x) (fun _ _ => 1/2)
      ([] : List (List (List ℚ) × List ℕ)) [([[1, 0]], [0])] true =
      ([], some (PyError.unboundLocalError "i")) :=
  ⟨rfl, rfl, rfl⟩

/-- Claim C1 (code bug): on a single-sample validation batch whose label
is the top-scored class, the metric pipeline of `validate` returns top-1
and top-5 error `-99`, not the `0` the claim states: `accuracy` scales the
correct count by `100 / batch_size` (a percentage), while `validate`
computes `1 - avg` as if the meter held a fraction. -/
theorem validate_percent_minus_one_eval :
    validate ⟨0, 0, 0, 0⟩ ⟨0, 0, 0, 0⟩ (fun x : List (List ℚ) => x)
      [([[5, 4, 3, 2, 1]], [0])] = (-99, -99) ∧ ((-99 : ℚ) ≠ 1 - 1) := by
  constructor
  · norm_num [validate, accuracy, topkIdx, insDesc, AverageMeter.reset,
      AverageMeter.update, List.range_succ, List.filter]
  · norm_num

/-- Claim C2: `parse_args` defines no `convert_to_mxnet` destination, so
the attribute reads `main` performs from its start through line 600 stop
with `AttributeError` exactly at `args.convert_to_mxnet` — before model
construction — on every invocation. -/
theorem convert_to_mxnet_attribute_error :
    parse_args_dests.contains "convert_to_mxnet" = false ∧
    attr_read_chain parse_args_dests main_attr_reads =
      Except.error (PyError.attributeError "convert_to_mxnet") := by
  exact ⟨by decide, rfl⟩

/-- Claim C3 (code bug): on the fresh-training path (no resume checkpoint)
`prepare_trainer` raises `UnboundLocalError` for both supported optimizer
names, because `start_epoch` and `best_prec1` are only assigned inside the
resume branch; with a resume checkpoint it returns the restored state,
epoch, and best metric. -/
theorem prepare_trainer_fresh_unbound :
    prepare_trainer "sgd" (1/10) (9/10) (1/10000) none =
      Except.error (PyError.unboundLocalError "start_epoch") ∧
    prepare_trainer "nag" (1/10) (9/10) (1/10000) none =
      Except.error (PyError.unboundLocalError "start_epoch") ∧
    prepare_trainer "nag" (1/10) (9/10) (1/10000) (some ⟨[], [5], 7, 1/5⟩) =
      Except.ok (⟨1/10, 9/10, 1/10000, true, [5]⟩, none, 7, 1/5) :=
  ⟨rfl, rfl, rfl⟩

/-- Claim C4 (code bug): `save_params` writes checkpoints through
`net.save_parameters`, an MXNet Gluon method absent from the PyTorch
module API, so the attribute lookup fails and no dictionary with the
fields the resume path reads (`state_dict`, `optimizer`, `epoch`,
`best_prec1`) is ever written. -/
theorem save_params_gluon_api_mismatch :
    save_params torch_nn_module_attrs =
      Except.error (PyError.attributeError "save_parameters") ∧
    checkpoint_read_keys = ["state_dict", "optimizer", "epoch", "best_prec1"] :=
  ⟨rfl, rfl⟩

/-- Claim C5 counterexample: the evaluate-mode and resume-path assertions
are not the only custom error control — `train_net` raises an assertion
failure for `start_epoch1 = 0` and `prepare_trainer` raises a bare
`Exception` for the optimizer name `adam`, in a state where neither named
assertion fires. -/
theorem not_only_assertions_counterexample :
    train_net_assert 0 = Except.error PyError.assertionError ∧
    prepare_trainer "adam" (1/10) (9/10) (1/10000) none =
      Except.error PyError.exception ∧
    evaluate_check true "model.pth" = Except.ok () ∧
    prepare_model_check (fun _ => true) "model.pth" = Except.ok () := by
  refine ⟨rfl, rfl, ?_, ?_⟩ <;> simp [evaluate_check, prepare_model_check]

/-- Claim C5 amended: in evaluate mode the assertion at line 617 fails iff
neither the use-pretrained flag nor a non-empty (stripped) resume path is
supplied, and `prepare_model` asserts an existing file iff a non-empty
path is given that the file system lacks; these two are however not the
only custom error control (see the counterexample). -/
theorem assertion_sites_amended (up : Bool) (rs : String)
    (isfile : String → Bool) (path : String) (s : Int) :
    (evaluate_check up rs = Except.error PyError.assertionError ↔
      (up = false ∧ rs = "")) ∧
    (prepare_model_check isfile path = Except.error PyError.assertionError ↔
      (path ≠ "" ∧ isfile path = false)) ∧
    (train_net_assert s = Except.error PyError.assertionError ↔ s < 1) := by
  refine ⟨?_, ?_, ?_⟩
  · rw [evaluate_check]
    split
    next hc =>
      simp only [reduceCtorEq, false_iff, not_and]
      intro hup
      rcases hc with h | h
      · rw [hup] at h; exact absurd h (by simp)
      · intro hrs; exact absurd hrs h
    next hc =>
      push_neg at hc
      simp only [true_iff]
      exact ⟨by simpa using hc.1, hc.2⟩
  · rw [prepare_model_check]
    split
    next hp =>
      split
      next hf => simp [hp, hf]
      next hf => simp [hp, hf]
    next hp =>
      push_neg at hp
      simp [hp]
  · rw [train_net_assert]
    split
    next h => simp only [reduceCtorEq, false_iff]; omega
    next h => simp only [true_iff]; omega

/-- Claim C6 (code bug): for `mobilenet1_0` — present in the local
`slk_models` registry but absent from torchvision — `_get_model` raises
`KeyError` instead of returning the registry's network, because the
dictionary subscript raises `KeyError`, which the `except ValueError`
handler does not catch; a name known to neither collection likewise
raises `KeyError`, not the `ValueError` listing supported names. -/
theorem get_model_keyerror_eval :
    slk_model_names.contains "mobilenet1_0" = true ∧
    torchvision_model_names.contains "mobilenet1_0" = false ∧
    get_model (fun n => torchvision_model_names.contains n) "mobilenet1_0" =
      Except.error (PyError.keyError "mobilenet1_0") ∧
    get_model (fun n => torchvision_model_names.contains n) "unknown_net" =
      Except.error (PyError.keyError "unknown_net") :=
  ⟨by decide, by decide, rfl, rfl⟩

/-- Claim C8 (code bug): `train_epoch` does reset the top-1 meter, but an
epoch with one batch never completes: line 493 iterates over the
0-dimensional loss tensor (and would call the MXNet-only `asscalar`), so
the epoch raises `TypeError` instead of returning the top-1 training
error and averaged loss. -/
theorem train_epoch_crashes_eval :
    (⟨3, 3, 3, 3⟩ : AverageMeter).reset = ⟨0, 0, 0, 0⟩ ∧
    train_epoch ⟨3, 3, 3, 3⟩ (fun x : List (List ℚ) => x) (fun _ _ => 1/2)
      [([[1, 0]], [0])] =
      Except.error (PyError.typeError "iteration over a 0-d tensor") :=
  ⟨rfl, rfl⟩

end TrainPt
